import Mathlib

/-!
Shallow embedding of the One-Time QR voucher system (`src/app.py`):
a Flask + SQLite app issuing one-time-use tokens and redeeming them
through an admin-PIN-protected verify endpoint.

The `vouchers` table (app.py, `init_db`) becomes a `Store` of `Voucher`
records; the `/api/verify` handler (`api_verify`) and the `/issue`
handler (`issue`) become pure functions on that store; `gen_token`
becomes a function of the six random bytes drawn by
`secrets.token_hex(6)`.  Timestamps are abstract `Nat`s.
-/

namespace OneTimeQR

/-- A row of the `vouchers` table: `id INTEGER PRIMARY KEY AUTOINCREMENT,
email TEXT, token TEXT UNIQUE, used INTEGER DEFAULT 0, created_at TEXT,
used_at TEXT`. -/
structure Voucher where
  id : Nat
  email : String
  token : String
  used : Bool
  createdAt : Nat
  usedAt : Option Nat
deriving Repr, DecidableEq

/-- The SQLite database state: the list of voucher rows (in insertion
order) together with the next AUTOINCREMENT id. -/
structure Store where
  vouchers : List Voucher
  nextId : Nat
deriving Repr, DecidableEq

/-- The tokens currently present in the store, in row order. -/
def Store.tokens (st : Store) : List String :=
  st.vouchers.map Voucher.token

/-- Python `str.strip()`: remove leading and trailing whitespace,
expressed on the character list. -/
def strip (s : String) : String :=
  ⟨((s.data.dropWhile Char.isWhitespace).reverse.dropWhile
      Char.isWhitespace).reverse⟩

/-- Python `str.upper()` on ASCII text: uppercase every character. -/
def upper (s : String) : String :=
  ⟨s.data.map Char.toUpper⟩

/-- Python `rawToken.strip().upper()` from `api_verify`. -/
def normalize (s : String) : String :=
  upper (strip s)

/-- The JSON statuses `api_verify` can return. -/
inductive VerifyStatus where
  | valid (email : String)
  | used
  | invalid
  | unauthorized
deriving Repr, DecidableEq

/-- The `SELECT id, email, used FROM vouchers WHERE token = ?` lookup:
first row whose token equals the given (already normalized) token. -/
def readRow (st : Store) (token : String) : Option Voucher :=
  st.vouchers.find? (fun v => v.token == token)

/-- The `UPDATE vouchers SET used = 1, used_at = ? WHERE id = ?`
statement: set `used` and `used_at` on every row with the given id. -/
def writeUsed (st : Store) (rowId : Nat) (now : Nat) : Store :=
  { st with vouchers := st.vouchers.map (fun v =>
      if v.id == rowId then { v with used := true, usedAt := some now } else v) }

/-- The request body as seen by `request.get_json(silent=True)`:
`none` when the body is absent or not valid JSON, otherwise the JSON
object as an association list of string fields. -/
abbrev Body := Option (List (String × String))

/-- The `/api/verify` handler (`api_verify` in app.py): check the
`X-Admin-Pin` header against `ADMIN_PIN`, extract and normalize the
token from the JSON body (`(data.get('token') or '').strip().upper()`),
look the token up, and either report `used` or mark the row used. -/
def api_verify (adminPin pinHeader : String) (body : Body) (now : Nat)
    (st : Store) : VerifyStatus × Store :=
  if pinHeader ≠ adminPin then (.unauthorized, st)
  else
    let data := body.getD []
    let token := normalize ((data.lookup "token").getD "")
    if token = "" then (.invalid, st)
    else
      match readRow st token with
      | none => (.invalid, st)
      | some row =>
        if row.used then (.used, st)
        else (.valid row.email, writeUsed st row.id now)

/-! ### Issuance (`/issue` handler) -/

/-- The outcome the `/issue` handler reports to the admin. -/
inductive IssueResult where
  | emailRequired
  | emailFailed (token : String)
  | sent (token : String)
  | duplicateError
deriving Repr, DecidableEq

/-- The store-level insert performed by `issue`
(`INSERT INTO vouchers (email, token, used, created_at) VALUES (?, ?, 0, ?)`):
the `UNIQUE` constraint on `token` (schema in `init_db`) rejects the
insert when the token already exists, otherwise a fresh `Unused` row is
appended with the next AUTOINCREMENT id. -/
def create (st : Store) (email token : String) (now : Nat) :
    Except Unit Store :=
  if st.vouchers.any (fun v => v.token == token) then .error ()
  else .ok { vouchers :=
               st.vouchers ++ [⟨st.nextId, email, token, false, now, none⟩],
             nextId := st.nextId + 1 }

/-- The `/issue` handler (`issue` in app.py): trim the submitted email
and reject it when empty; generate one token; insert and commit the
voucher row; only then attempt email delivery (`send_qr_email`), whose
failure is reported but does not touch the store.  The single generated
token is a parameter (the draw of `gen_token()`), and `deliveryOk`
models whether `send_qr_email` raises.  There is no retry: a `UNIQUE`
violation on the one insert propagates as an uncaught error. -/
def issue (st : Store) (email token : String) (now : Nat)
    (deliveryOk : Bool) : IssueResult × Store :=
  if strip email = "" then (.emailRequired, st)
  else
    match create st (strip email) token now with
    | .error _ => (.duplicateError, st)
    | .ok st' =>
      if deliveryOk then (.sent token, st') else (.emailFailed token, st')

/-- Run a sequence of `/issue` requests, each carrying the submitted
email, the token drawn by `gen_token()`, the clock reading, and whether
delivery succeeds. -/
def issueSeq (st : Store) : List (String × String × Nat × Bool) → Store
  | [] => st
  | (e, t, n, d) :: rest => issueSeq (issue st e t n d).2 rest

/-! ### Token generation (`gen_token`) -/

/-- One hexadecimal digit as produced by Python's `hex`/`token_hex`
rendering: `0`–`9` then lowercase `a`–`f`. -/
def hexDigit (n : Nat) : Char :=
  if n < 10 then Char.ofNat (48 + n) else Char.ofNat (87 + n)

/-- The two lowercase hex characters of one byte, high nibble first,
as in Python's `bytes.hex()`. -/
def byteToHex (b : Nat) : List Char :=
  [hexDigit (b / 16), hexDigit (b % 16)]

/-- `secrets.token_hex(6)` applied to the six random bytes it draws:
their concatenated lowercase hex rendering. -/
def token_hex (bytes : List Nat) : List Char :=
  (bytes.map byteToHex).flatten

/-- `gen_token()` (app.py): `secrets.token_hex(6).upper()`, as a
function of the six random bytes drawn; `.upper()` maps every
character through its uppercase form. -/
def gen_token (bytes : List Nat) : String :=
  ⟨(token_hex bytes).map Char.toUpper⟩

/-! ### The interleaved race semantics for `/api/verify`

`api_verify` runs its `SELECT` and its `UPDATE` as two separate SQLite
statements with the decision taken in Python in between; nothing makes
the pair atomic, so two concurrent requests in different handler
threads interleave at that statement boundary.  We model one in-flight
authorized request for a given token as a phase machine whose atomic
actions against the shared store are exactly the `SELECT`
(`readRow`) and the decide-and-`UPDATE` (`writeUsed`) of `api_verify`. -/

/-- Phase of one in-flight authorized `/api/verify` request: not yet
run its `SELECT`; holding the row (or absence) its `SELECT` returned;
or finished with a response. -/
inductive CallPhase where
  | start
  | afterRead (row : Option Voucher)
  | done (res : VerifyStatus)
deriving Repr, DecidableEq

/-- One atomic step of an in-flight request, mirroring `api_verify`
after its auth and normalization: first the `SELECT`, then the
Python-side decision together with the conditional `UPDATE`. -/
def stepCall (token : String) (now : Nat) :
    CallPhase → Store → CallPhase × Store
  | .start, st => (.afterRead (readRow st token), st)
  | .afterRead none, st => (.done .invalid, st)
  | .afterRead (some row), st =>
      if row.used then (.done .used, st)
      else (.done (.valid row.email), writeUsed st row.id now)
  | .done r, st => (.done r, st)

/-- Joint state of two concurrent requests for the same token and the
shared store. -/
structure RaceState where
  p1 : CallPhase
  p2 : CallPhase
  store : Store
deriving Repr, DecidableEq

/-- Let one of the two requests (chosen by the scheduler bit) take its
next atomic step. -/
def raceStep (token : String) (t1 t2 : Nat) (who : Bool)
    (s : RaceState) : RaceState :=
  if who then
    let (p1', st') := stepCall token t1 s.p1 s.store
    { s with p1 := p1', store := st' }
  else
    let (p2', st') := stepCall token t2 s.p2 s.store
    { s with p2 := p2', store := st' }

/-- Run two concurrent requests under an arbitrary interleaving
(the schedule lists which request steps next). -/
def raceRun (token : String) (t1 t2 : Nat) (sched : List Bool)
    (st : Store) : RaceState :=
  sched.foldl (fun s who => raceStep token t1 t2 who s)
    ⟨.start, .start, st⟩

/-- Run one request alone to completion: its `SELECT` step followed by
its decide-and-`UPDATE` step. -/
def soloRun (token : String) (now : Nat) (st : Store) :
    CallPhase × Store :=
  let (p, st') := stepCall token now .start st
  stepCall token now p st'

/-- A store holding one unused voucher, as after a single successful
issuance. -/
def sampleStore : Store :=
  ⟨[⟨1, "a@b", "AB12CD34EF56", false, 0, none⟩], 2⟩

/-- Issuance as the spec describes it (§4.4): on `DuplicateToken` the
service regenerates a fresh token and retries `create`, up to a fixed
retry budget, failing only when the budget is exhausted.  The
successive draws of the generator are the `draws` list, whose length is
the budget.  This definition follows the spec's words, for comparison
with `issue`, which is translated from the source. -/
def issueWithRetry_spec (st : Store) (email : String) (draws : List String)
    (now : Nat) (deliveryOk : Bool) : IssueResult × Store :=
  if strip email = "" then (.emailRequired, st)
  else
    match draws with
    | [] => (.duplicateError, st)
    | t :: rest =>
      match create st (strip email) t now with
      | .error _ => issueWithRetry_spec st email rest now deliveryOk
      | .ok st' =>
        if deliveryOk then (.sent t, st') else (.emailFailed t, st')

/-- The uppercase hexadecimal alphabet. -/
def upperHexChars : List Char :=
  "0123456789ABCDEF".data

/-! ## Helper lemmas -/

/-- Extracting the token field from a one-field JSON body. -/
theorem lookup_token (raw : String) :
    (([("token", raw)] : List (String × String)).lookup "token") = some raw := by
  simp [List.lookup]

/-- With the correct PIN and a nonempty normalized token in the body,
`api_verify` is exactly the lookup-and-conditionally-update core. -/
theorem api_verify_auth (pin raw : String) (now : Nat) (st : Store)
    (hnz : normalize raw ≠ "") :
    api_verify pin pin (some [("token", raw)]) now st
      = (match readRow st (normalize raw) with
         | none => (.invalid, st)
         | some row =>
           if row.used then (.used, st)
           else (.valid row.email, writeUsed st row.id now)) := by
  simp [api_verify, lookup_token, hnz]

/-- `writeUsed` never changes a row's token. -/
theorem writeUsed_token_eq (rowId now : Nat) (v : Voucher) :
    (if v.id == rowId then
        { v with used := true, usedAt := some now } else v).token = v.token := by
  by_cases h : v.id == rowId <;> simp [h]

/-- Looking the same token up again after its row was marked used
returns the marked row. -/
theorem readRow_writeUsed (st : Store) (t : String) (v : Voucher)
    (now : Nat) (h : readRow st t = some v) :
    readRow (writeUsed st v.id now) t
      = some { v with used := true, usedAt := some now } := by
  unfold readRow writeUsed at *
  rw [List.find?_map]
  have hp : ((fun w : Voucher => w.token == t) ∘
      (fun w : Voucher => if w.id == v.id then
        { w with used := true, usedAt := some now } else w))
      = (fun w : Voucher => w.token == t) := by
    funext w
    simp only [Function.comp]
    by_cases hw : w.id == v.id <;> simp [hw]
  rw [hp, h]
  simp

/-- Fidelity of the race model: a request that runs its two atomic
steps with no interference produces exactly the answer and store of
`api_verify` on the same authorized, normalized token. -/
theorem soloRun_eq_api_verify (pin token : String) (now : Nat)
    (st : Store) (hnz : token ≠ "") (hnorm : normalize token = token) :
    soloRun token now st
      = (.done (api_verify pin pin (some [("token", token)]) now st).1,
         (api_verify pin pin (some [("token", token)]) now st).2) := by
  have hz : normalize token ≠ "" := by rw [hnorm]; exact hnz
  rw [api_verify_auth pin token now st hz, hnorm]
  cases hr : readRow st token with
  | none => simp [soloRun, stepCall, hr]
  | some row =>
    by_cases hu : row.used <;> simp [soloRun, stepCall, hr, hu]

/-! ## Claim theorems -/

/-- C3: for every request body (whatever token it carries, if any) and
every presented PIN that does not exactly match the configured admin
PIN, `api_verify` answers `unauthorized` with the store untouched, and
the answer does not depend on the store at all (no lookup): the check
precedes normalization and lookup. -/
theorem wrong_pin_unauthorized (adminPin pinHeader : String) (body : Body)
    (now : Nat) (st : Store) (h : pinHeader ≠ adminPin) :
    api_verify adminPin pinHeader body now st = (.unauthorized, st) := by
  simp [api_verify, h]

/-- Witness for `wrong_pin_unauthorized`: a wrong PIN presented with a
real, unused token is rejected without mutation. -/
theorem wrong_pin_unauthorized_witness :
    api_verify "123456" "9999" (some [("token", "AB12CD34EF56")]) 7
        sampleStore = (.unauthorized, sampleStore) :=
  wrong_pin_unauthorized "123456" "9999"
    (some [("token", "AB12CD34EF56")]) 7 sampleStore (by decide)

/-- C10: when the request body is absent or not valid JSON
(`request.get_json(silent=True)` returns `None`), the verify endpoint
with the correct PIN answers `invalid` and leaves every store
untouched — no store lookup, no exception. -/
theorem absent_body_invalid (adminPin : String) (now : Nat) (st : Store) :
    api_verify adminPin adminPin none now st = (.invalid, st) := by
  have h : normalize "" = "" := by decide
  simp [api_verify, h]

/-- C5: with the correct PIN, a well-formed token that matches no
voucher row yields `invalid` and the store — every voucher and every
field — is unchanged. -/
theorem unknown_token_invalid (pin raw : String) (now : Nat) (st : Store)
    (hnz : normalize raw ≠ "")
    (hnone : readRow st (normalize raw) = none) :
    api_verify pin pin (some [("token", raw)]) now st = (.invalid, st) := by
  rw [api_verify_auth pin raw now st hnz, hnone]

/-- Witness for `unknown_token_invalid`: redeeming `DOESNOTEXIST`
against the sample store. -/
theorem unknown_token_invalid_witness :
    api_verify "123456" "123456" (some [("token", "DOESNOTEXIST")]) 7
        sampleStore = (.invalid, sampleStore) :=
  unknown_token_invalid "123456" "DOESNOTEXIST" 7 sampleStore
    (by decide) (by decide)

/-- C2: redeeming the same token twice sequentially with the correct
PIN yields `valid` (Redeemed) then `used` (AlreadyUsed), never `valid`
twice, and the second call leaves the store exactly as the first call
left it (no mutation, `used`/`usedAt` unchanged). -/
theorem redeem_twice (pin raw : String) (st : Store) (v : Voucher)
    (n1 n2 : Nat)
    (hnz : normalize raw ≠ "")
    (hfind : readRow st (normalize raw) = some v)
    (hunused : v.used = false) :
    (api_verify pin pin (some [("token", raw)]) n1 st).1 = .valid v.email
    ∧ (api_verify pin pin (some [("token", raw)]) n2
        (api_verify pin pin (some [("token", raw)]) n1 st).2).1 = .used
    ∧ (api_verify pin pin (some [("token", raw)]) n2
        (api_verify pin pin (some [("token", raw)]) n1 st).2).2
      = (api_verify pin pin (some [("token", raw)]) n1 st).2 := by
  have h1 : api_verify pin pin (some [("token", raw)]) n1 st
      = (.valid v.email, writeUsed st v.id n1) := by
    rw [api_verify_auth pin raw n1 st hnz, hfind]
    simp [hunused]
  have h2 : api_verify pin pin (some [("token", raw)]) n2
      (writeUsed st v.id n1) = (.used, writeUsed st v.id n1) := by
    rw [api_verify_auth pin raw n2 _ hnz,
      readRow_writeUsed st (normalize raw) v n1 hfind]
    simp
  rw [h1]
  simp [h2]

/-- Witness for `redeem_twice`: two sequential redemptions of the
sample store's token. -/
theorem redeem_twice_witness :
    (api_verify "123456" "123456" (some [("token", "AB12CD34EF56")]) 7
        sampleStore).1 = .valid "a@b"
    ∧ (api_verify "123456" "123456" (some [("token", "AB12CD34EF56")]) 9
        (api_verify "123456" "123456" (some [("token", "AB12CD34EF56")]) 7
          sampleStore).2).1 = .used
    ∧ (api_verify "123456" "123456" (some [("token", "AB12CD34EF56")]) 9
        (api_verify "123456" "123456" (some [("token", "AB12CD34EF56")]) 7
          sampleStore).2).2
      = (api_verify "123456" "123456" (some [("token", "AB12CD34EF56")]) 7
          sampleStore).2 :=
  redeem_twice "123456" "AB12CD34EF56" sampleStore
    ⟨1, "a@b", "AB12CD34EF56", false, 0, none⟩ 7 9
    (by decide) (by decide) (by decide)

/-- C4: a raw token that strips and uppercases to a stored voucher's
(uppercase) token redeems exactly like the canonical form; and a raw
token that is empty after stripping is answered `invalid` with every
store untouched (no lookup). -/
theorem normalization_correct (pin raw t emptyRaw : String) (now : Nat)
    (st st' : Store)
    (hex : ∃ v ∈ st.vouchers, v.token = t)
    (hraw : normalize raw = t) (ht : normalize t = t)
    (hempty : strip emptyRaw = "") :
    api_verify pin pin (some [("token", raw)]) now st
      = api_verify pin pin (some [("token", t)]) now st
    ∧ api_verify pin pin (some [("token", emptyRaw)]) now st'
      = (.invalid, st') := by
  constructor
  · simp [api_verify, lookup_token, hraw, ht]
  · have hu : upper "" = "" := by decide
    have hn : normalize emptyRaw = "" := by rw [normalize, hempty, hu]
    simp [api_verify, lookup_token, hn]

/-- Witness for `normalization_correct`: redeeming
`" ab12cd34ef56 "` behaves like redeeming `AB12CD34EF56`, and the
all-whitespace raw token `"   "` is rejected without lookup. -/
theorem normalization_correct_witness :
    api_verify "123456" "123456" (some [("token", " ab12cd34ef56 ")]) 7
        sampleStore
      = api_verify "123456" "123456" (some [("token", "AB12CD34EF56")]) 7
        sampleStore
    ∧ api_verify "123456" "123456" (some [("token", "   ")]) 7 sampleStore
      = (.invalid, sampleStore) :=
  normalization_correct "123456" " ab12cd34ef56 " "AB12CD34EF56" "   " 7
    sampleStore sampleStore (by decide) (by decide) (by decide) (by decide)

/-- C1: the race rule fails on the code.  `api_verify` runs its
`SELECT` and its unconditional `UPDATE ... WHERE id = ?` as separate
statements; under the interleaving read₁, read₂, update₁, update₂ of
two concurrent authorized redemptions of the sample store's token,
both calls answer `valid` (Redeemed), none answers `used`
(AlreadyUsed), and the final `usedAt` is the second call's timestamp,
overwriting the first. -/
theorem race_both_redeemed :
    (raceRun "AB12CD34EF56" 10 20 [true, false, true, false]
        sampleStore).p1 = .done (.valid "a@b")
    ∧ (raceRun "AB12CD34EF56" 10 20 [true, false, true, false]
        sampleStore).p2 = .done (.valid "a@b")
    ∧ ((raceRun "AB12CD34EF56" 10 20 [true, false, true, false]
        sampleStore).store.vouchers.map Voucher.usedAt) = [some 20] := by
  decide

/-- C6 counterexample: the code does not retry on a duplicate token.
With the first generator draw colliding with the stored token and a
fresh second draw available, `issue` fails outright with the duplicate
error and creates nothing, while the retrying issuance the spec
describes (budget 2) would succeed with the second draw. -/
theorem issue_no_retry_counterexample :
    issue sampleStore "c@d" "AB12CD34EF56" 3 true
      = (.duplicateError, sampleStore)
    ∧ issueWithRetry_spec sampleStore "c@d"
        ["AB12CD34EF56", "FFFFFFFFFFFF"] 3 true
      = (.sent "FFFFFFFFFFFF",
         ⟨[⟨1, "a@b", "AB12CD34EF56", false, 0, none⟩,
           ⟨2, "c@d", "FFFFFFFFFFFF", false, 3, none⟩], 3⟩) := by
  decide

/-- C6 amended: the store's insert does fail on a duplicate token
(the schema's `UNIQUE` constraint), but the issuance code makes
exactly one create attempt and surfaces the duplicate immediately as a
fatal error, with no regeneration and no retry (a retry budget of
zero). -/
theorem create_duplicate_no_retry (st : Store) (email token : String)
    (n : Nat) (d : Bool)
    (hdup : st.vouchers.any (fun v => v.token == token) = true)
    (he : strip email ≠ "") :
    create st email token n = .error ()
    ∧ issue st email token n d = (.duplicateError, st) := by
  refine ⟨by simp [create, hdup], ?_⟩
  simp [issue, he, create, hdup]

/-- Witness for `create_duplicate_no_retry`: issuing against the
sample store with a colliding token draw. -/
theorem create_duplicate_no_retry_witness :
    create sampleStore "c@d" "AB12CD34EF56" 3 = .error ()
    ∧ issue sampleStore "c@d" "AB12CD34EF56" 3 true
      = (.duplicateError, sampleStore) :=
  create_duplicate_no_retry sampleStore "c@d" "AB12CD34EF56" 3 true
    (by decide) (by decide)

/-- C7: the voucher row is inserted and committed before delivery is
attempted, and a delivery failure rolls nothing back: after `issue`
with failing delivery the handler reports the failure, yet the voucher
is present, unused, with no `usedAt`, and a subsequent authorized
redemption of its token succeeds. -/
theorem delivery_failure_durable (st : Store) (email token pin : String)
    (n m : Nat)
    (he : strip email ≠ "")
    (hfresh : st.vouchers.any (fun v => v.token == token) = false)
    (hnz : token ≠ "") (hnorm : normalize token = token) :
    (issue st email token n false).1 = .emailFailed token
    ∧ readRow (issue st email token n false).2 token
        = some ⟨st.nextId, strip email, token, false, n, none⟩
    ∧ (api_verify pin pin (some [("token", token)]) m
         (issue st email token n false).2).1 = .valid (strip email) := by
  have hst : (issue st email token n false).2
      = ⟨st.vouchers ++ [⟨st.nextId, strip email, token, false, n, none⟩],
         st.nextId + 1⟩ := by
    simp [issue, he, create, hfresh]
  have hnone : st.vouchers.find? (fun v => v.token == token) = none := by
    rw [List.find?_eq_none]
    intro x hx
    exact (List.any_eq_false.mp hfresh) x hx
  have hread : readRow (issue st email token n false).2 token
      = some ⟨st.nextId, strip email, token, false, n, none⟩ := by
    rw [hst]
    unfold readRow
    simp only [List.find?_append, hnone, Option.none_or]
    simp
  refine ⟨by simp [issue, he, create, hfresh], hread, ?_⟩
  have hz : normalize token ≠ "" := by rw [hnorm]; exact hnz
  rw [api_verify_auth pin token m _ hz, hnorm, hread]
  simp

/-- Witness for `delivery_failure_durable`: a failed email delivery
after inserting token `FFFFFFFFFFFF` into the sample store. -/
theorem delivery_failure_durable_witness :
    (issue sampleStore "c@d" "FFFFFFFFFFFF" 3 false).1
      = .emailFailed "FFFFFFFFFFFF"
    ∧ readRow (issue sampleStore "c@d" "FFFFFFFFFFFF" 3 false).2
        "FFFFFFFFFFFF"
      = some ⟨2, "c@d", "FFFFFFFFFFFF", false, 3, none⟩
    ∧ (api_verify "123456" "123456" (some [("token", "FFFFFFFFFFFF")]) 9
        (issue sampleStore "c@d" "FFFFFFFFFFFF" 3 false).2).1
      = .valid "c@d" :=
  delivery_failure_durable sampleStore "c@d" "FFFFFFFFFFFF" "123456" 3 9
    (by decide) (by decide) (by decide) (by decide)

/-- One `/issue` call either leaves the stored token list unchanged or
appends its token, and it appends only a token not already present:
the `UNIQUE` constraint rejects every other insert. -/
theorem issue_tokens_cases (st : Store) (e t : String) (n : Nat)
    (d : Bool) :
    ((issue st e t n d).2).tokens = st.tokens
    ∨ (t ∉ st.tokens ∧ ((issue st e t n d).2).tokens = st.tokens ++ [t]) := by
  by_cases hemail : strip e = ""
  · left
    simp [issue, hemail]
  · by_cases hdup : st.vouchers.any (fun v => v.token == t)
    · left
      simp [issue, hemail, create, hdup]
    · right
      rw [Bool.not_eq_true] at hdup
      constructor
      · intro hmem
        obtain ⟨v, hv, hvt⟩ := List.mem_map.mp hmem
        exact (List.any_eq_false.mp hdup) v hv (by simp [hvt])
      · cases d <;>
          simp [issue, hemail, create, hdup, Store.tokens]

/-- C8: token uniqueness is enforced by the store itself.  Starting
from any store whose tokens are pairwise distinct, every sequence of
`issue` calls — whatever tokens the generator happens to draw and
whether or not deliveries succeed — leaves the stored tokens pairwise
distinct: no two vouchers ever share a token. -/
theorem store_enforces_uniqueness
    (reqs : List (String × String × Nat × Bool)) (st : Store)
    (h : st.tokens.Nodup) : (issueSeq st reqs).tokens.Nodup := by
  induction reqs generalizing st with
  | nil => exact h
  | cons r rest ih =>
    obtain ⟨e, t, n, d⟩ := r
    show (issueSeq (issue st e t n d).2 rest).tokens.Nodup
    apply ih
    rcases issue_tokens_cases st e t n d with heq | ⟨hnot, heq⟩
    · rw [heq]; exact h
    · rw [heq]
      simp [List.nodup_append, h, hnot]

/-- Witness for `store_enforces_uniqueness`: from the empty store,
three issuance calls whose second draw collides with the first still
leave the stored tokens distinct. -/
theorem store_enforces_uniqueness_witness :
    (issueSeq ⟨[], 1⟩
      [("a@b", "AB12CD34EF56", 0, true),
       ("c@d", "AB12CD34EF56", 1, true),
       ("e@f", "FFFFFFFFFFFF", 2, false)]).tokens.Nodup :=
  store_enforces_uniqueness _ _ (by decide)

/-- The hex rendering of a byte list has two characters per byte. -/
theorem token_hex_length (bytes : List Nat) :
    (token_hex bytes).length = 2 * bytes.length := by
  induction bytes with
  | nil => rfl
  | cons b bs ih =>
    have hcons : token_hex (b :: bs) = byteToHex b ++ token_hex bs := rfl
    rw [hcons, List.length_append, ih]
    simp [byteToHex]
    omega

/-- Uppercasing any hex digit of a nibble lands in the uppercase hex
alphabet. -/
theorem hexDigit_mem_upper (n : Nat) (h : n < 16) :
    Char.toUpper (hexDigit n) ∈ upperHexChars := by
  interval_cases n <;> decide

/-- C9: whatever six bytes the random source yields, `gen_token`
renders them as a string of exactly 12 characters, each an uppercase
hexadecimal digit; the 48 bits of entropy are the six-byte input
domain, drawn by `secrets.token_hex(6)`. -/
theorem gen_token_format (bytes : List Nat)
    (hlen : bytes.length = 6) (hb : ∀ b ∈ bytes, b < 256) :
    (gen_token bytes).length = 12
    ∧ ∀ c ∈ (gen_token bytes).data, c ∈ upperHexChars := by
  constructor
  · show ((token_hex bytes).map Char.toUpper).length = 12
    rw [List.length_map, token_hex_length, hlen]
  · intro c hc
    have hc' : c ∈ (token_hex bytes).map Char.toUpper := hc
    rw [List.mem_map] at hc'
    obtain ⟨c0, hc0, rfl⟩ := hc'
    rw [token_hex, List.mem_flatten] at hc0
    obtain ⟨l, hl, hc0l⟩ := hc0
    rw [List.mem_map] at hl
    obtain ⟨b, hbmem, rfl⟩ := hl
    have hb256 : b < 256 := hb b hbmem
    rcases (by simpa [byteToHex] using hc0l :
        c0 = hexDigit (b / 16) ∨ c0 = hexDigit (b % 16)) with rfl | rfl
    · exact hexDigit_mem_upper _ (by omega)
    · exact hexDigit_mem_upper _ (by omega)

/-- Witness for `gen_token_format`: the six bytes `00 ff 10 ab cd ef`
render as `00FF10ABCDEF`. -/
theorem gen_token_format_witness :
    (gen_token [0, 255, 16, 171, 205, 239]).length = 12
    ∧ ∀ c ∈ (gen_token [0, 255, 16, 171, 205, 239]).data,
        c ∈ upperHexChars :=
  gen_token_format [0, 255, 16, 171, 205, 239] (by decide) (by decide)

end OneTimeQR
